import Mathlib

/-!
Shallow embedding of the boxing repository: the boxer registry
(boxing/models/boxers_model.py), the ring simulator
(boxing/models/ring_model.py) and the argument contract of the external
random source (boxing/utils/api_utils.py).

The relational store is modelled as an in-memory list of rows carried
explicitly through every operation; a Python exception becomes an
`Except.error` carrying the message raised (quote characters appearing in
some Python messages are elided).  The external random draw consumed by
`fight` is passed in as an explicit real parameter.
-/

namespace Boxing

/-! ## boxers_model.py -/

/-- Model of `get_weight_class(weight)`: four-band classification, raising below 125. -/
def get_weight_class (weight : Int) : Except String String :=
  if 203 ≤ weight then .ok "HEAVYWEIGHT"
  else if 166 ≤ weight then .ok "MIDDLEWEIGHT"
  else if 133 ≤ weight then .ok "LIGHTWEIGHT"
  else if 125 ≤ weight then .ok "FEATHERWEIGHT"
  else .error s!"Invalid weight: {weight}. Weight must be at least 125."

/-- Model of the `Boxer` dataclass.  `weight_class` is the derived field assigned by
`__post_init__`. -/
structure Boxer where
  id : Int
  name : String
  weight : Int
  height : Int
  reach : ℚ
  age : Int
  weight_class : String
deriving DecidableEq

/-- Model of `Boxer.__post_init__`: constructing a `Boxer` computes `weight_class`
from `weight` and propagates the failure for weights below 125. -/
def mkBoxer (id : Int) (name : String) (weight height : Int) (reach : ℚ)
    (age : Int) : Except String Boxer :=
  (get_weight_class weight).map fun wc => ⟨id, name, weight, height, reach, age, wc⟩

/-- Model of one row of the `boxers` table. -/
structure BoxerRow where
  id : Int
  name : String
  weight : Int
  height : Int
  reach : ℚ
  age : Int
  fights : Nat
  wins : Nat
deriving DecidableEq

/-- Model of the `boxers` table together with its autoincrement counter. -/
structure DB where
  rows : List BoxerRow
  nextId : Int
deriving DecidableEq

/-- Model of `create_boxer(name, weight, height, reach, age)`: the four bound checks in
source order, then the explicit duplicate-name check, then the insert with
zero fights and wins.  (The `sqlite3.IntegrityError` duplicate path is
unreachable in this single-writer model: the pre-check already fired.) -/
def create_boxer (db : DB) (name : String) (weight height : Int) (reach : ℚ)
    (age : Int) : Except String DB :=
  if weight < 125 then
    .error s!"Invalid weight: {weight}. Must be at least 125."
  else if height ≤ 0 then
    .error s!"Invalid height: {height}. Must be greater than 0."
  else if reach ≤ 0 then
    .error "Invalid reach: Must be greater than 0."
  else if ¬ (18 ≤ age ∧ age ≤ 40) then
    .error s!"Invalid age: {age}. Must be between 18 and 40."
  else if db.rows.any fun row => row.name = name then
    .error s!"Boxer with name {name} already exists"
  else
    .ok ⟨db.rows ++ [⟨db.nextId, name, weight, height, reach, age, 0, 0⟩], db.nextId + 1⟩

/-- Model of `update_boxer_stats(boxer_id, result)`: result validation, existence
check, then the UPDATE hitting exactly the rows whose id matches. -/
def update_boxer_stats (db : DB) (boxer_id : Int) (result : String) :
    Except String DB :=
  if ¬ (result = "win" ∨ result = "loss") then
    .error s!"Invalid result: {result}. Expected win or loss."
  else if ¬ db.rows.any (fun row => row.id = boxer_id) then
    .error s!"Boxer with ID {boxer_id} not found."
  else
    .ok ⟨db.rows.map fun row =>
          if row.id = boxer_id then
            if result = "win" then
              { row with fights := row.fights + 1, wins := row.wins + 1 }
            else
              { row with fights := row.fights + 1 }
          else row,
        db.nextId⟩

/-- Model of Python `round(q, 1)` on an exact value: round to one decimal place, ties
to even as in CPython. -/
def round1 (q : ℚ) : ℚ :=
  let x := q * 10
  let f : Int := Int.floor x
  let frac := x - f
  if frac < 1/2 then (f : ℚ) / 10
  else if 1/2 < frac then ((f : ℚ) + 1) / 10
  else if f % 2 = 0 then (f : ℚ) / 10 else ((f : ℚ) + 1) / 10

/-- Model of one dictionary of the list returned by `get_leaderboard`. -/
structure LBEntry where
  id : Int
  name : String
  weight : Int
  height : Int
  reach : ℚ
  age : Int
  weight_class : String
  fights : Nat
  wins : Nat
  win_pct : ℚ
deriving DecidableEq

/-- Model of the dictionary built for one row of the leaderboard query: `win_pct` is
the SQL ratio `wins * 1.0 / fights` converted to a percentage and rounded to
one decimal place. -/
def entryOf (wc : String) (row : BoxerRow) : LBEntry :=
  ⟨row.id, row.name, row.weight, row.height, row.reach, row.age, wc,
    row.fights, row.wins, round1 ((row.wins : ℚ) / (row.fights : ℚ) * 100)⟩

/-- Model of the loop body of `get_leaderboard`: `get_weight_class(row[2])` may raise. -/
def rowToEntry (row : BoxerRow) : Except String LBEntry :=
  (get_weight_class row.weight).map fun wc => entryOf wc row

/-- Model of `get_leaderboard(sort_by)`: keeps rows with `fights > 0`, orders
descending by the requested key, then builds the entry dictionaries. -/
def get_leaderboard (db : DB) (sort_by : String) :
    Except String (List LBEntry) :=
  if sort_by = "win_pct" then
    ((db.rows.filter fun row => 0 < row.fights).mergeSort fun a b =>
        decide ((b.wins : ℚ) / (b.fights : ℚ) ≤ (a.wins : ℚ) / (a.fights : ℚ))).mapM
      rowToEntry
  else if sort_by = "wins" then
    ((db.rows.filter fun row => 0 < row.fights).mergeSort fun a b =>
        decide (b.wins ≤ a.wins)).mapM rowToEntry
  else
    .error s!"Invalid sort_by parameter: {sort_by}"

/-! ## ring_model.py -/

/-- Model of `RingModel.get_fighting_skill(boxer)`:
`(weight * len(name)) + (reach / 10) + age_modifier`. -/
def get_fighting_skill (boxer : Boxer) : ℚ :=
  let age_modifier : ℚ := if boxer.age < 25 then -1 else if 35 < boxer.age then -2 else 0
  (boxer.weight : ℚ) * (boxer.name.length : ℚ) + boxer.reach / 10 + age_modifier

/-- Model of `RingModel.enter_ring(boxer)`: full-ring check then append.  (The
`isinstance` `TypeError` branch is unreachable in the typed embedding.) -/
def enter_ring (ring : List Boxer) (boxer : Boxer) : Except String (List Boxer) :=
  if 2 ≤ ring.length then .error "Ring is full, cannot add more boxers."
  else .ok (ring ++ [boxer])

/-- Model of `RingModel.clear_ring()`: early return on an empty ring, else `clear()`. -/
def clear_ring (ring : List Boxer) : List Boxer :=
  if ring.isEmpty then ring else []

/-- Model of `RingModel.get_boxers()`: raises on an empty ring, else returns the ring. -/
def get_boxers (ring : List Boxer) : Except String (List Boxer) :=
  if ring.isEmpty then .error "Ring is empty" else .ok ring

/-- Model of `delta = abs(skill_1 - skill_2)` inside `fight`. -/
def delta (b1 b2 : Boxer) : ℚ :=
  |get_fighting_skill b1 - get_fighting_skill b2|

/-- Model of `normalized_delta = 1 / (1 + math.e ** (-delta))` inside `fight`. -/
noncomputable def normalized_delta (b1 b2 : Boxer) : ℝ :=
  1 / (1 + Real.exp (-((delta b1 b2 : ℚ) : ℝ)))

/-- Model of the winner/loser selection of `fight`, given the external draw `r`:
`boxer_1` wins iff `r < normalized_delta`. -/
noncomputable def fight_pair (b1 b2 : Boxer) (r : ℝ) : Boxer × Boxer :=
  if r < normalized_delta b1 b2 then (b1, b2) else (b2, b1)

/-- Model of `RingModel.fight()`, with the external draw `r` passed explicitly and the
registry table carried through.  The result is the returned name (or the
message raised) together with the post-state of the ring and the table; an
exception thrown between the two `update_boxer_stats` calls leaves the first
update persisted and the ring uncleared, exactly as in Python. -/
noncomputable def fight (ring : List Boxer) (db : DB) (r : ℝ) :
    Except String String × List Boxer × DB :=
  if ring.length < 2 then
    (.error "There must be two boxers to start a fight.", ring, db)
  else
    match ring with
    | [boxer_1, boxer_2] =>
      let wl := fight_pair boxer_1 boxer_2 r
      match update_boxer_stats db wl.1.id "win" with
      | .error e => (.error e, ring, db)
      | .ok db1 =>
        match update_boxer_stats db1 wl.2.id "loss" with
        | .error e => (.error e, ring, db1)
        | .ok db2 => (.ok wl.1.name, clear_ring ring, db2)
    | _ => (.error "too many values to unpack (expected 2)", ring, db)

/-! ## api_utils.py: the argument contract of `get_random` -/

/-- Model of the guard `get_random` runs on its one parameter before fetching. -/
def get_random_guard (max : Int) : Except String Unit :=
  if max < 1 then .error "max must be at least 1" else .ok ()

/-- Fact about the source: `get_random(max: int)` has exactly one required positional parameter
(api_utils.py line 16). -/
def get_random_required_params : Nat := 1

/-- Fact about the source: `fight` invokes the random source as `get_random()`, supplying zero
arguments (ring_model.py line 51). -/
def fight_supplied_args : Nat := 0

/-- Python call semantics: a call is well-formed only when every required
positional parameter receives an argument; otherwise it raises `TypeError`
before the callee runs. -/
def python_call_wellformed (required supplied : Nat) : Bool :=
  decide (required ≤ supplied)

/-! ## Operation sequences over the ring -/

/-- Model of one caller-visible operation on a `RingModel` (with the registry table in
scope for `fight`).  `doFight r` carries the external draw. -/
inductive RingOp where
  | enter (b : Boxer)
  | getBoxers
  | clear
  | doFight (r : ℝ)

/-- Model of the ring plus the registry table: the state a session mutates. -/
structure SysState where
  ring : List Boxer
  db : DB

/-- Runs one operation; an operation that raises leaves whatever partial
state Python would leave. -/
noncomputable def runOp (s : SysState) (op : RingOp) : SysState :=
  match op with
  | .enter b =>
    match enter_ring s.ring b with
    | .ok ring' => ⟨ring', s.db⟩
    | .error _ => s
  | .getBoxers => s
  | .clear => ⟨clear_ring s.ring, s.db⟩
  | .doFight r =>
    let res := fight s.ring s.db r
    ⟨res.2.1, res.2.2⟩

/-- Runs a sequence of operations. -/
noncomputable def runOps (s : SysState) (ops : List RingOp) : SysState :=
  ops.foldl runOp s

/-- Model of `RingModel.__init__`: the ring starts empty. -/
def initialState (db : DB) : SysState := ⟨[], db⟩

/-! ## Sample data (the fixtures of test_ring_model.py) -/

/-- Sample boxer `Boxer(1, "Muhammad Ali", 236, 191, 198, 38)`. -/
def sample_boxer1 : Boxer := ⟨1, "Muhammad Ali", 236, 191, 198, 38, "HEAVYWEIGHT"⟩

/-- Sample boxer `Boxer(2, "Mike Tyson", 220, 178, 180, 22)`. -/
def sample_boxer2 : Boxer := ⟨2, "Mike Tyson", 220, 178, 180, 22, "HEAVYWEIGHT"⟩

/-- Sample registry table holding rows for both sample boxers. -/
def sample_db : DB :=
  ⟨[⟨1, "Muhammad Ali", 236, 191, 198, 38, 0, 0⟩,
    ⟨2, "Mike Tyson", 220, 178, 180, 22, 3, 2⟩], 3⟩

/-! ## Helper lemmas -/

/-- A `mapM` over `Except` that succeeds pointwise succeeds globally. -/
theorem mapM_ok_of_forall {α β : Type} (f : α → Except String β) (g : α → β)
    (l : List α) (h : ∀ x ∈ l, f x = .ok (g x)) : l.mapM f = .ok (l.map g) := by
  induction l with
  | nil => rfl
  | cons a t ih =>
    rw [List.mapM_cons, h a (List.mem_cons_self a t),
      ih fun x hx => h x (List.mem_cons_of_mem a hx)]
    rfl

/-- A list is pointwise related to its image under a map. -/
theorem forall₂_map_of_forall {α β : Type} (f : α → β) (R : α → β → Prop)
    (h : ∀ x, R x (f x)) (l : List α) : List.Forall₂ R l (l.map f) := by
  induction l with
  | nil => exact .nil
  | cons a t ih => exact .cons (h a) ih

/-- Successful stat updates preserve the multiset of row ids (they only touch
`fights` and `wins`). -/
theorem update_boxer_stats_ids (db : DB) (boxer_id : Int) (result : String)
    (db' : DB) (h : update_boxer_stats db boxer_id result = .ok db') :
    db'.rows.map (fun row => row.id) = db.rows.map (fun row => row.id) := by
  unfold update_boxer_stats at h
  split at h
  · exact absurd h (by simp)
  · split at h
    · exact absurd h (by simp)
    · cases h
      rw [List.map_map]
      apply List.map_congr_left
      intro row _
      simp only [Function.comp_apply]
      split
      · split <;> rfl
      · rfl

/-- On a present id and a legal result, `update_boxer_stats` succeeds and
returns the pointwise-updated table. -/
theorem update_boxer_stats_ok (db : DB) (boxer_id : Int) (result : String)
    (hres : result = "win" ∨ result = "loss")
    (hmem : ∃ row ∈ db.rows, row.id = boxer_id) :
    update_boxer_stats db boxer_id result =
      .ok ⟨db.rows.map fun row =>
            if row.id = boxer_id then
              if result = "win" then
                { row with fights := row.fights + 1, wins := row.wins + 1 }
              else
                { row with fights := row.fights + 1 }
            else row,
          db.nextId⟩ := by
  unfold update_boxer_stats
  rw [if_neg (not_not_intro hres), if_neg]
  rw [not_not, List.any_eq_true]
  obtain ⟨row, hrow, hid⟩ := hmem
  exact ⟨row, hrow, decide_eq_true hid⟩

/-! ## Claims -/

/-- C2: the claim says the single call `fight` makes to the external random
source is well-formed against the interface `get_random(max) -> float`,
supplying the required bound `max ≥ 1`.  The code contradicts it:
`get_random` has one required positional parameter while the call site in
`fight` supplies zero arguments, so Python raises `TypeError` before any
draw is produced. -/
theorem C2_random_call_arity :
    python_call_wellformed get_random_required_params fight_supplied_args = false
    ∧ get_random_required_params = 1 ∧ fight_supplied_args = 0 := by
  refine ⟨?_, rfl, rfl⟩
  decide

/-- C6: `get_weight_class` returns HEAVYWEIGHT iff `weight ≥ 203`,
MIDDLEWEIGHT iff `166 ≤ weight < 203`, LIGHTWEIGHT iff `133 ≤ weight < 166`,
FEATHERWEIGHT iff `125 ≤ weight < 133`, and fails iff `weight < 125`. -/
theorem C6_weight_class (w : Int) :
    (get_weight_class w = .ok "HEAVYWEIGHT" ↔ 203 ≤ w)
    ∧ (get_weight_class w = .ok "MIDDLEWEIGHT" ↔ 166 ≤ w ∧ w < 203)
    ∧ (get_weight_class w = .ok "LIGHTWEIGHT" ↔ 133 ≤ w ∧ w < 166)
    ∧ (get_weight_class w = .ok "FEATHERWEIGHT" ↔ 125 ≤ w ∧ w < 133)
    ∧ ((∃ e, get_weight_class w = .error e) ↔ w < 125) := by
  unfold get_weight_class
  split_ifs with h1 h2 h3 h4 <;>
    refine ⟨?_, ?_, ?_, ?_, ?_⟩ <;> simp_all <;> omega

/-- C7: `get_fighting_skill` is a pure function of the name, weight, reach
and age of the boxer (ids and heights do not matter), equal to
`weight * len(name) + reach/10 + age_modifier` with `age_modifier = -1` for
age < 25, `-2` for age > 35 and `0` otherwise; on the sample boxer
`Muhammad Ali` (weight 236, name length 12, reach 198, age 38) it equals
2849.8. -/
theorem C7_fighting_skill (b b' : Boxer) (hn : b.name = b'.name)
    (hw : b.weight = b'.weight) (hr : b.reach = b'.reach) (ha : b.age = b'.age) :
    get_fighting_skill b = get_fighting_skill b'
    ∧ get_fighting_skill b =
        (b.weight : ℚ) * (b.name.length : ℚ) + b.reach / 10 +
          (if b.age < 25 then -1 else if 35 < b.age then -2 else 0)
    ∧ get_fighting_skill sample_boxer1 = 2849.8 := by
  refine ⟨?_, rfl, ?_⟩
  · unfold get_fighting_skill
    rw [hn, hw, hr, ha]
  · norm_num [get_fighting_skill, sample_boxer1,
      show "Muhammad Ali".length = 12 from rfl]

/-- Witness for C7 at two concrete boxers agreeing on name, weight, reach and
age but differing in id and height. -/
theorem C7_fighting_skill_witness :
    get_fighting_skill sample_boxer1 =
      get_fighting_skill ⟨7, "Muhammad Ali", 236, 150, 198, 38, "HEAVYWEIGHT"⟩ :=
  (C7_fighting_skill sample_boxer1
    ⟨7, "Muhammad Ali", 236, 150, 198, 38, "HEAVYWEIGHT"⟩ rfl rfl rfl rfl).1

/-- C3: `create_boxer` validates weight, then height, then reach, then age,
failing on the first violation; with valid bounds it fails on a duplicate
name, leaving the table untouched; and with a fresh name it appends exactly
one new record with zero fights and zero wins, keeping every existing row. -/
theorem C3_create_boxer (db : DB) (name : String) (weight height : Int)
    (reach : ℚ) (age : Int) :
    (weight < 125 →
      create_boxer db name weight height reach age =
        .error s!"Invalid weight: {weight}. Must be at least 125.")
    ∧ (125 ≤ weight → height ≤ 0 →
      create_boxer db name weight height reach age =
        .error s!"Invalid height: {height}. Must be greater than 0.")
    ∧ (125 ≤ weight → 0 < height → reach ≤ 0 →
      create_boxer db name weight height reach age =
        .error "Invalid reach: Must be greater than 0.")
    ∧ (125 ≤ weight → 0 < height → 0 < reach → ¬ (18 ≤ age ∧ age ≤ 40) →
      create_boxer db name weight height reach age =
        .error s!"Invalid age: {age}. Must be between 18 and 40.")
    ∧ (125 ≤ weight → 0 < height → 0 < reach → 18 ≤ age → age ≤ 40 →
      (∃ row ∈ db.rows, row.name = name) →
      create_boxer db name weight height reach age =
        .error s!"Boxer with name {name} already exists")
    ∧ (125 ≤ weight → 0 < height → 0 < reach → 18 ≤ age → age ≤ 40 →
      (∀ row ∈ db.rows, row.name ≠ name) →
      create_boxer db name weight height reach age =
        .ok ⟨db.rows ++ [⟨db.nextId, name, weight, height, reach, age, 0, 0⟩],
          db.nextId + 1⟩) := by
  refine ⟨?_, ?_, ?_, ?_, ?_, ?_⟩
  · intro h
    unfold create_boxer
    rw [if_pos h]
  · intro hw hh
    unfold create_boxer
    rw [if_neg (not_lt.mpr hw), if_pos hh]
  · intro hw hh hr
    unfold create_boxer
    rw [if_neg (not_lt.mpr hw), if_neg (not_le.mpr hh), if_pos hr]
  · intro hw hh hr ha
    unfold create_boxer
    rw [if_neg (not_lt.mpr hw), if_neg (not_le.mpr hh), if_neg (not_le.mpr hr),
      if_pos ha]
  · intro hw hh hr ha1 ha2 hdup
    unfold create_boxer
    rw [if_neg (not_lt.mpr hw), if_neg (not_le.mpr hh), if_neg (not_le.mpr hr),
      if_neg (not_not_intro ⟨ha1, ha2⟩), if_pos]
    rw [List.any_eq_true]
    obtain ⟨row, hrow, hname⟩ := hdup
    exact ⟨row, hrow, decide_eq_true hname⟩
  · intro hw hh hr ha1 ha2 hfresh
    unfold create_boxer
    rw [if_neg (not_lt.mpr hw), if_neg (not_le.mpr hh), if_neg (not_le.mpr hr),
      if_neg (not_not_intro ⟨ha1, ha2⟩), if_neg]
    simp only [List.any_eq_true, decide_eq_true_eq, not_exists, not_and]
    intro row hrow heq
    exact absurd heq (hfresh row hrow)

/-- Witness for C3: on the sample table, a weight of 100 is rejected with the
weight message, and a fresh valid boxer is appended with zero stats. -/
theorem C3_create_boxer_witness :
    create_boxer sample_db "Joe Frazier" 100 180 70 30 =
      .error "Invalid weight: 100. Must be at least 125."
    ∧ create_boxer sample_db "Joe Frazier" 205 180 70 30 =
      .ok ⟨sample_db.rows ++ [⟨3, "Joe Frazier", 205, 180, 70, 30, 0, 0⟩], 4⟩ :=
  ⟨(C3_create_boxer sample_db "Joe Frazier" 100 180 70 30).1 (by decide),
   (C3_create_boxer sample_db "Joe Frazier" 205 180 70 30).2.2.2.2.2
     (by decide) (by decide) (by norm_num) (by decide) (by decide) (by decide)⟩

/-- C4: `update_boxer_stats` rejects any result other than win or loss,
rejects an id with no stored record (when the result is legal), and on a
stored id a win bumps the fights and wins of that boxer by one while a loss bumps
only fights, with every other row (and every other field) unchanged. -/
theorem C4_update_stats (db : DB) (boxer_id : Int) (result : String) :
    (¬ (result = "win" ∨ result = "loss") →
      update_boxer_stats db boxer_id result =
        .error s!"Invalid result: {result}. Expected win or loss.")
    ∧ ((result = "win" ∨ result = "loss") → (∀ row ∈ db.rows, row.id ≠ boxer_id) →
      update_boxer_stats db boxer_id result =
        .error s!"Boxer with ID {boxer_id} not found.")
    ∧ ((∃ row ∈ db.rows, row.id = boxer_id) →
      ∃ db', update_boxer_stats db boxer_id "win" = .ok db'
        ∧ List.Forall₂ (fun row row' =>
            if row.id = boxer_id then
              row'.fights = row.fights + 1 ∧ row'.wins = row.wins + 1
                ∧ row'.id = row.id ∧ row'.name = row.name
                ∧ row'.weight = row.weight ∧ row'.height = row.height
                ∧ row'.reach = row.reach ∧ row'.age = row.age
            else row' = row)
          db.rows db'.rows)
    ∧ ((∃ row ∈ db.rows, row.id = boxer_id) →
      ∃ db', update_boxer_stats db boxer_id "loss" = .ok db'
        ∧ List.Forall₂ (fun row row' =>
            if row.id = boxer_id then
              row'.fights = row.fights + 1 ∧ row'.wins = row.wins
                ∧ row'.id = row.id ∧ row'.name = row.name
                ∧ row'.weight = row.weight ∧ row'.height = row.height
                ∧ row'.reach = row.reach ∧ row'.age = row.age
            else row' = row)
          db.rows db'.rows) := by
  refine ⟨?_, ?_, ?_, ?_⟩
  · intro h
    unfold update_boxer_stats
    rw [if_pos h]
  · intro hres habs
    unfold update_boxer_stats
    rw [if_neg (not_not_intro hres), if_pos]
    simp only [List.any_eq_true, decide_eq_true_eq, not_exists, not_and]
    intro row hrow
    exact habs row hrow
  · intro hmem
    refine ⟨_, update_boxer_stats_ok db boxer_id "win" (.inl rfl) hmem, ?_⟩
    apply forall₂_map_of_forall
    intro row
    by_cases h : row.id = boxer_id <;> simp [h]
  · intro hmem
    refine ⟨_, update_boxer_stats_ok db boxer_id "loss" (.inr rfl) hmem, ?_⟩
    apply forall₂_map_of_forall
    intro row
    by_cases h : row.id = boxer_id <;> simp [h]

/-- Witness for C4 on the sample table: a bogus result string is rejected,
and a win for id 2 succeeds with the pointwise update. -/
theorem C4_update_stats_witness :
    update_boxer_stats sample_db 2 "draw" =
      .error "Invalid result: draw. Expected win or loss."
    ∧ ∃ db', update_boxer_stats sample_db 2 "win" = .ok db'
      ∧ List.Forall₂ (fun row row' =>
          if row.id = 2 then
            row'.fights = row.fights + 1 ∧ row'.wins = row.wins + 1
              ∧ row'.id = row.id ∧ row'.name = row.name
              ∧ row'.weight = row.weight ∧ row'.height = row.height
              ∧ row'.reach = row.reach ∧ row'.age = row.age
          else row' = row)
        sample_db.rows db'.rows :=
  ⟨(C4_update_stats sample_db 2 "draw").1 (by decide),
   (C4_update_stats sample_db 2 "draw").2.2.1 (by decide)⟩

/-- The logistic transform of a nonnegative gap never drops below one half. -/
theorem normalized_delta_ge_half (b1 b2 : Boxer) :
    1 / 2 ≤ normalized_delta b1 b2 := by
  unfold normalized_delta
  have hd : (0 : ℝ) ≤ ((delta b1 b2 : ℚ) : ℝ) := by
    have h := abs_nonneg (get_fighting_skill b1 - get_fighting_skill b2)
    unfold delta
    exact_mod_cast h
  have hexp : Real.exp (-((delta b1 b2 : ℚ) : ℝ)) ≤ 1 :=
    Real.exp_le_one_iff.mpr (by linarith)
  have hpos : (0 : ℝ) < 1 + Real.exp (-((delta b1 b2 : ℚ) : ℝ)) := by positivity
  have h2 : 1 + Real.exp (-((delta b1 b2 : ℚ) : ℝ)) ≤ 2 := by linarith
  calc (1 : ℝ) / 2 ≤ 1 / (1 + Real.exp (-((delta b1 b2 : ℚ) : ℝ))) :=
        one_div_le_one_div_of_le hpos h2
    _ = _ := rfl

/-- Whatever the ring and table, `fight` either raises (leaving the ring as
it was) or returns a name with the ring cleared. -/
theorem fight_shape (ring : List Boxer) (db : DB) (r : ℝ) :
    (∃ e db', fight ring db r = (.error e, ring, db'))
    ∨ (∃ w db', fight ring db r = (.ok w, [], db')) := by
  unfold fight
  split
  · exact .inl ⟨_, _, rfl⟩
  · split
    · dsimp only
      split
      · exact .inl ⟨_, _, rfl⟩
      · split
        · exact .inl ⟨_, _, rfl⟩
        · exact .inr ⟨_, _, by rw [clear_ring]; rfl⟩
    · exact .inl ⟨_, _, rfl⟩

/-- C8: the win probability is `1/(1 + e^(-|skill_1 - skill_2|)) ≥ 1/2`
whichever boxer is stronger, so every draw `r` from `[0, 1)` that falls below
`1/2` makes the first-entered boxer the winner: against a uniform draw the
first boxer wins with probability at least one half. -/
theorem C8_first_boxer_bias (b1 b2 : Boxer) (r : ℝ) (_h0 : 0 ≤ r)
    (hr : r < 1 / 2) :
    1 / 2 ≤ normalized_delta b1 b2 ∧ fight_pair b1 b2 r = (b1, b2) := by
  refine ⟨normalized_delta_ge_half b1 b2, ?_⟩
  unfold fight_pair
  rw [if_pos (lt_of_lt_of_le hr (normalized_delta_ge_half b1 b2))]

/-- Witness for C8 at the sample boxers and the draw `r = 0`. -/
theorem C8_first_boxer_bias_witness :
    1 / 2 ≤ normalized_delta sample_boxer1 sample_boxer2
    ∧ fight_pair sample_boxer1 sample_boxer2 0 = (sample_boxer1, sample_boxer2) :=
  C8_first_boxer_bias sample_boxer1 sample_boxer2 0 le_rfl (by norm_num)

/-- Clearing the ring always leaves it empty. -/
theorem clear_ring_eq_nil (ring : List Boxer) : clear_ring ring = [] := by
  unfold clear_ring
  split
  · next h => exact List.isEmpty_iff.mp h
  · rfl

/-- Presence of an id in the table survives a successful stat update. -/
theorem mem_id_of_update (db : DB) (boxer_id : Int) (result : String) (db' : DB)
    (h : update_boxer_stats db boxer_id result = .ok db') (i : Int)
    (hmem : ∃ row ∈ db.rows, row.id = i) : ∃ row ∈ db'.rows, row.id = i := by
  obtain ⟨row, hrow, hid⟩ := hmem
  have hids := update_boxer_stats_ids db boxer_id result db' h
  have hin : i ∈ db'.rows.map fun row => row.id := by
    rw [hids]
    exact List.mem_map.mpr ⟨row, hrow, hid⟩
  obtain ⟨row', hrow', hid'⟩ := List.mem_map.mp hin
  exact ⟨row', hrow', hid'⟩

/-- With exactly two boxers whose ids are stored, `fight` persists a win for
the selected winner, then a loss for the loser, clears the ring and returns
the name of the winner. -/
theorem fight_two_ok (b1 b2 : Boxer) (db : DB) (r : ℝ)
    (h1 : ∃ row ∈ db.rows, row.id = (fight_pair b1 b2 r).1.id)
    (h2 : ∃ row ∈ db.rows, row.id = (fight_pair b1 b2 r).2.id) :
    ∃ db1 db2, update_boxer_stats db (fight_pair b1 b2 r).1.id "win" = .ok db1
      ∧ update_boxer_stats db1 (fight_pair b1 b2 r).2.id "loss" = .ok db2
      ∧ fight [b1, b2] db r = (.ok (fight_pair b1 b2 r).1.name, [], db2) := by
  obtain ⟨db1, hu1⟩ :
      ∃ d, update_boxer_stats db (fight_pair b1 b2 r).1.id "win" = .ok d :=
    ⟨_, update_boxer_stats_ok _ _ _ (.inl rfl) h1⟩
  obtain ⟨db2, hu2⟩ :
      ∃ d, update_boxer_stats db1 (fight_pair b1 b2 r).2.id "loss" = .ok d :=
    ⟨_, update_boxer_stats_ok _ _ _ (.inr rfl)
      (mem_id_of_update _ _ _ _ hu1 _ h2)⟩
  refine ⟨db1, db2, hu1, hu2, ?_⟩
  unfold fight
  rw [if_neg (by simp)]
  dsimp only
  rw [hu1]
  dsimp only
  rw [hu2]
  dsimp only
  rw [clear_ring_eq_nil]

/-- C1: with two boxers entered in order, `fight` compares the external draw
`r` against the logistic transform of the absolute skill gap, declares the
first-entered boxer the winner exactly when `r < normalized`, returns the
name of the winner; with fewer than two boxers it raises and no stats are
touched. -/
theorem C1_fight (b1 b2 : Boxer) (db : DB) (r : ℝ)
    (h1 : ∃ row ∈ db.rows, row.id = b1.id)
    (h2 : ∃ row ∈ db.rows, row.id = b2.id) :
    (∀ ring : List Boxer, ring.length < 2 →
      fight ring db r =
        (.error "There must be two boxers to start a fight.", ring, db))
    ∧ (∃ db', fight [b1, b2] db r =
        (.ok (if r < normalized_delta b1 b2 then b1.name else b2.name), [], db'))
    ∧ normalized_delta b1 b2 =
        1 / (1 + Real.exp
          (-((|get_fighting_skill b1 - get_fighting_skill b2| : ℚ) : ℝ))) := by
  refine ⟨?_, ?_, rfl⟩
  · intro ring h
    unfold fight
    rw [if_pos h]
  · by_cases hlt : r < normalized_delta b1 b2
    · have hfp : fight_pair b1 b2 r = (b1, b2) := by
        unfold fight_pair
        rw [if_pos hlt]
      obtain ⟨db1, db2, _, _, hfight⟩ :=
        fight_two_ok b1 b2 db r (by rw [hfp]; exact h1) (by rw [hfp]; exact h2)
      refine ⟨db2, ?_⟩
      rw [hfight, hfp, if_pos hlt]
    · have hfp : fight_pair b1 b2 r = (b2, b1) := by
        unfold fight_pair
        rw [if_neg hlt]
      obtain ⟨db1, db2, _, _, hfight⟩ :=
        fight_two_ok b1 b2 db r (by rw [hfp]; exact h2) (by rw [hfp]; exact h1)
      refine ⟨db2, ?_⟩
      rw [hfight, hfp, if_neg hlt]

/-- Witness for C1: on one boxer the fight raises and leaves the table as it
was. -/
theorem C1_fight_witness :
    fight [sample_boxer1] sample_db 0 =
      (.error "There must be two boxers to start a fight.",
        [sample_boxer1], sample_db) :=
  (C1_fight sample_boxer1 sample_boxer2 sample_db 0 (by decide) (by decide)).1
    [sample_boxer1] (by decide)

/-- One operation keeps the ring at two boxers or fewer. -/
theorem runOp_length (s : SysState) (op : RingOp) (h : s.ring.length ≤ 2) :
    (runOp s op).ring.length ≤ 2 := by
  cases op with
  | enter b =>
    unfold runOp enter_ring
    dsimp only
    by_cases hc : 2 ≤ s.ring.length
    · rw [if_pos hc]
      exact h
    · rw [if_neg hc]
      dsimp only
      rw [List.length_append]
      push_neg at hc
      simp only [List.length_singleton]
      omega
  | getBoxers => exact h
  | clear =>
    unfold runOp
    dsimp only
    rw [clear_ring_eq_nil]
    simp
  | doFight r =>
    unfold runOp
    dsimp only
    rcases fight_shape s.ring s.db r with ⟨e, db', heq⟩ | ⟨w, db', heq⟩ <;>
      rw [heq]
    · exact h
    · simp

/-- Any run from a state within capacity stays within capacity. -/
theorem runOps_length (ops : List RingOp) :
    ∀ s : SysState, s.ring.length ≤ 2 → (runOps s ops).ring.length ≤ 2 := by
  induction ops with
  | nil => exact fun s h => h
  | cons op t ih => exact fun s h => ih _ (runOp_length s op h)

/-- C9: from the empty ring, any sequence of enter/get/clear/fight operations
keeps at most two boxers in the ring; entering a full ring raises (leaving it
unchanged); clearing always empties it; and a fight that returns a winner
leaves the ring empty. -/
theorem C9_ring_capacity (db0 : DB) (ops : List RingOp) :
    (runOps (initialState db0) ops).ring.length ≤ 2
    ∧ (∀ (ring : List Boxer) (b : Boxer), 2 ≤ ring.length →
        enter_ring ring b = .error "Ring is full, cannot add more boxers.")
    ∧ (∀ ring : List Boxer, clear_ring ring = [])
    ∧ (∀ (ring : List Boxer) (db : DB) (r : ℝ) (w : String),
        (fight ring db r).1 = .ok w → (fight ring db r).2.1 = []) := by
  refine ⟨runOps_length ops (initialState db0) (by simp [initialState]),
    ?_, clear_ring_eq_nil, ?_⟩
  · intro ring b h
    unfold enter_ring
    rw [if_pos h]
  · intro ring db r w h
    rcases fight_shape ring db r with ⟨e, db', heq⟩ | ⟨w', db', heq⟩
    · rw [heq] at h
      exact absurd h (by simp)
    · rw [heq]

/-- Witness for C9: a third boxer is refused out of the full sample ring, and
clearing a one-boxer ring empties it. -/
theorem C9_ring_capacity_witness :
    enter_ring [sample_boxer1, sample_boxer2] sample_boxer1 =
      .error "Ring is full, cannot add more boxers."
    ∧ clear_ring [sample_boxer1] = [] :=
  ⟨(C9_ring_capacity sample_db []).2.1 [sample_boxer1, sample_boxer2]
      sample_boxer1 (by decide),
   (C9_ring_capacity sample_db []).2.2.1 [sample_boxer1]⟩

/-- C10: `enter_ring` checks only the count, so a boxer already in a
non-full ring may enter again; a fight of a boxer against themself has a zero
skill gap, a win probability of exactly one half, and records one win update
followed by one loss update against that same id. -/
theorem C10_no_distinctness (ring : List Boxer) (b : Boxer) (db : DB) (r : ℝ)
    (hlen : ring.length < 2) (hmem : ∃ row ∈ db.rows, row.id = b.id) :
    enter_ring ring b = .ok (ring ++ [b])
    ∧ delta b b = 0
    ∧ normalized_delta b b = 1 / 2
    ∧ ∃ db1 db2, update_boxer_stats db b.id "win" = .ok db1
        ∧ update_boxer_stats db1 b.id "loss" = .ok db2
        ∧ fight [b, b] db r = (.ok b.name, [], db2) := by
  have hd0 : delta b b = 0 := by
    unfold delta
    rw [sub_self, abs_zero]
  have hfp : fight_pair b b r = (b, b) := by
    unfold fight_pair
    split <;> rfl
  refine ⟨?_, hd0, ?_, ?_⟩
  · unfold enter_ring
    rw [if_neg (not_le.mpr hlen)]
  · unfold normalized_delta
    rw [hd0]
    norm_num [Real.exp_zero]
  · obtain ⟨db1, db2, hu1, hu2, hfight⟩ :=
      fight_two_ok b b db r (by rw [hfp]; exact hmem) (by rw [hfp]; exact hmem)
    rw [hfp] at hu1 hu2 hfight
    exact ⟨db1, db2, hu1, hu2, hfight⟩

/-- Witness for C10: the sample boxer enters a ring already holding them, and
fighting themself yields their own name with a win and a loss recorded on
id 1. -/
theorem C10_no_distinctness_witness :
    enter_ring [sample_boxer1] sample_boxer1 =
      .ok [sample_boxer1, sample_boxer1]
    ∧ normalized_delta sample_boxer1 sample_boxer1 = 1 / 2 :=
  ⟨(C10_no_distinctness [sample_boxer1] sample_boxer1 sample_db 0
      (by decide) (by decide)).1,
   (C10_no_distinctness [sample_boxer1] sample_boxer1 sample_db 0
      (by decide) (by decide)).2.2.1⟩

/-- On a stored weight within bounds, the leaderboard loop body succeeds and
produces the entry for the computed weight class. -/
theorem rowToEntry_ok (row : BoxerRow) (h : 125 ≤ row.weight) :
    rowToEntry row =
      .ok (entryOf ((get_weight_class row.weight).toOption.getD "") row) := by
  unfold rowToEntry get_weight_class
  split_ifs <;> rfl

/-- When every stored weight is within bounds, building the entries for the
sorted filtered rows succeeds and is the pointwise image. -/
theorem leaderboard_mapM (db : DB) (le : BoxerRow → BoxerRow → Bool)
    (hvalid : ∀ row ∈ db.rows, 125 ≤ row.weight) :
    ((db.rows.filter fun row => 0 < row.fights).mergeSort le).mapM rowToEntry =
      .ok (((db.rows.filter fun row => 0 < row.fights).mergeSort le).map
        fun row => entryOf ((get_weight_class row.weight).toOption.getD "") row) := by
  apply mapM_ok_of_forall
  intro row hrow
  apply rowToEntry_ok
  apply hvalid
  have hmem : row ∈ db.rows.filter fun row => 0 < row.fights :=
    (List.mergeSort_perm _ le).mem_iff.mp hrow
  exact (List.mem_filter.mp hmem).1

/-- C5: `get_leaderboard` rejects any key other than wins or win_pct; on a
legal key (over a table of in-bounds weights) it returns exactly the stored
rows with at least one fight, in descending order of the requested key, each
entry carrying win_pct = wins/fights as a percentage rounded to one decimal
place, e.g. 10 wins in 12 fights gives 83.3. -/
theorem C5_leaderboard (db : DB) (sort_by : String)
    (hvalid : ∀ row ∈ db.rows, 125 ≤ row.weight) :
    (sort_by ≠ "wins" ∧ sort_by ≠ "win_pct" →
      get_leaderboard db sort_by = .error s!"Invalid sort_by parameter: {sort_by}")
    ∧ (∃ l, get_leaderboard db "wins" = .ok l
        ∧ l.Perm ((db.rows.filter fun row => 0 < row.fights).map fun row =>
            entryOf ((get_weight_class row.weight).toOption.getD "") row)
        ∧ List.Pairwise (fun e1 e2 => e2.wins ≤ e1.wins) l)
    ∧ (∃ l, get_leaderboard db "win_pct" = .ok l
        ∧ l.Perm ((db.rows.filter fun row => 0 < row.fights).map fun row =>
            entryOf ((get_weight_class row.weight).toOption.getD "") row)
        ∧ List.Pairwise (fun e1 e2 =>
            (e2.wins : ℚ) / (e2.fights : ℚ) ≤ (e1.wins : ℚ) / (e1.fights : ℚ)) l)
    ∧ (∀ wc row, (entryOf wc row).win_pct =
        round1 ((row.wins : ℚ) / (row.fights : ℚ) * 100))
    ∧ round1 ((10 : ℚ) / 12 * 100) = 83.3 := by
  refine ⟨?_, ?_, ?_, fun wc row => rfl, by norm_num [round1]⟩
  · rintro ⟨hw, hp⟩
    unfold get_leaderboard
    rw [if_neg hp, if_neg hw]
  · unfold get_leaderboard
    rw [if_neg (by decide), if_pos rfl]
    refine ⟨_, leaderboard_mapM db _ hvalid, ?_, ?_⟩
    · exact (List.mergeSort_perm _ _).map _
    · refine List.Pairwise.map _ ?_ (List.sorted_mergeSort ?_ ?_ _)
      · intro a b hab
        simpa using hab
      · intro a b c hab hbc
        simp only [decide_eq_true_eq] at hab hbc ⊢
        omega
      · intro a b
        simpa using Nat.le_total b.wins a.wins
  · unfold get_leaderboard
    rw [if_pos rfl]
    refine ⟨_, leaderboard_mapM db _ hvalid, ?_, ?_⟩
    · exact (List.mergeSort_perm _ _).map _
    · refine List.Pairwise.map _ ?_ (List.sorted_mergeSort ?_ ?_ _)
      · intro a b hab
        simpa using hab
      · intro a b c hab hbc
        simp only [decide_eq_true_eq] at hab hbc ⊢
        exact le_trans hbc hab
      · intro a b
        simpa using le_total
          ((b.wins : ℚ) / (b.fights : ℚ)) ((a.wins : ℚ) / (a.fights : ℚ))

/-- Witness for C5 on the sample table: the key `best` is rejected, and the
wins ordering succeeds with the characterised entries. -/
theorem C5_leaderboard_witness :
    get_leaderboard sample_db "best" = .error "Invalid sort_by parameter: best"
    ∧ ∃ l, get_leaderboard sample_db "wins" = .ok l
        ∧ l.Perm ((sample_db.rows.filter fun row => 0 < row.fights).map fun row =>
            entryOf ((get_weight_class row.weight).toOption.getD "") row)
        ∧ List.Pairwise (fun e1 e2 => e2.wins ≤ e1.wins) l :=
  ⟨(C5_leaderboard sample_db "best" (by decide)).1 (by decide),
   (C5_leaderboard sample_db "best" (by decide)).2.1⟩

end Boxing
